import Mathlib

/-!
Verification of the CareXpert backend session/token lifecycle core.

The development shallow-embeds the session core of the backend:
`generateToken`, `login`, `logout`, `refreshAccessToken`
(src/controllers/user.controller.ts), the request gate `isAuthenticated`
(src/middlewares/auth.middleware.ts), `softDeleteUser`
(src/controllers/admin.controller.ts), and the email-verification
consumption step.  The persistence layer (Prisma `user` table) is embedded
as an association list of user records; bcrypt digests and signed JWTs are
embedded symbolically as constructors of a string-value type `Str`, so that
the string comparisons the code performs (`user.refreshToken !== incomingRefreshToken`,
`jwt.verify`) become constructor comparisons with the same discriminating
power real strings have (a bcrypt digest is never the same string as a
serialized JWT).
-/

/-- Prisma user ids are opaque unique strings (UUIDs); embedded as `Nat`. -/
abbrev UserId := Nat

/-- The `Role` enum of the Prisma schema. -/
inductive Role where
  | PATIENT
  | DOCTOR
  | ADMIN
deriving DecidableEq

/-- Decoded JWT payload: `{ userId, tokenVersion }`.  `tokenVersion` is
`Option Nat` because `isAuthenticated` explicitly tolerates payloads in
which the field is absent (`decodedToken.tokenVersion !== undefined`). -/
structure Payload where
  userId : UserId
  tokenVersion : Option Nat
deriving DecidableEq

/-- The two signing secrets: `ACCESS_TOKEN_SECRET` and `REFRESH_TOKEN_SECRET`. -/
inductive Secret where
  | access
  | refresh
deriving DecidableEq

/-- String values that occur in credential positions.
`lit` is an ordinary string (for example the cleared refresh token `""`),
`jwt` is the serialization of a token signed with a secret, carrying its
payload and absolute expiry instant, and `bhash` is a bcrypt digest (with
its salt) of another string value.  Equality of `Str` values models string
equality: distinct constructors model the fact that a bcrypt digest
(`$2b$10$...`) is never literally equal to a serialized JWT (`eyJ...`). -/
inductive Str where
  | lit : String → Str
  | jwt : Secret → Payload → Nat → Str
  | bhash : Nat → Str → Str
deriving DecidableEq

/-- `jwt.verify(token, secret)` at time `now`: succeeds exactly on a token
signed with that secret and not yet expired, returning the payload; any
other string makes it throw (modelled as `none`). -/
def jwtVerify (secret : Secret) (now : Nat) (token : Str) : Option Payload :=
  match token with
  | Str.jwt sec p exp => if sec = secret then (if now < exp then some p else none) else none
  | _ => none

/-- JS `String.prototype.trim()`, embedded structurally over the character
list (Lean\x27s own `String.trim` is iterator-based and does not reduce in the
kernel). -/
def jsTrim (s : String) : String :=
  String.mk (((s.data.dropWhile Char.isWhitespace).reverse.dropWhile Char.isWhitespace).reverse)

/-- JS `String.prototype.toLowerCase()` on the basic latin range, embedded
structurally over the character list. -/
def jsLower (s : String) : String :=
  String.mk (s.data.map Char.toLower)

/-- `bcrypt.compare(raw, digest)`: true exactly when `digest` is a bcrypt
digest of `raw` (under any salt). -/
def bcryptCompare (raw : Str) (digest : Str) : Bool :=
  match digest with
  | Str.bhash _ s => s = raw
  | _ => false

/-- The user record, restricted to the fields the session/verification core
reads or writes (Prisma `User` model plus the `patient`/`doctor` relation
ids selected by the auth middleware). -/
structure User where
  id : UserId
  name : String
  email : String
  password : Str
  role : Role
  tokenVersion : Nat
  refreshToken : Str
  deletedAt : Option Nat
  isEmailVerified : Bool
  emailVerificationToken : Option String
  tokenExpiresAt : Option Nat
  patient : Option Nat
  doctor : Option Nat
deriving DecidableEq

/-- `prisma.user.findUnique({ where: { id } })`. -/
def findUser (db : List User) (id : UserId) : Option User :=
  db.find? fun u => u.id == id

/-- `prisma.user.findFirst({ where: { id, deletedAt: null } })`
as performed by the auth middleware. -/
def findActive (db : List User) (id : UserId) : Option User :=
  db.find? fun u => u.id == id && u.deletedAt.isNone

/-- `prisma.user.update({ where: { id }, data: ... })`: rewrite the record(s)
with the given id through `f`. -/
def updateUser (db : List User) (id : UserId) (f : User → User) : List User :=
  db.map fun u => if u.id = id then f u else u

/-- `data: { tokenVersion: { increment: 1 } }`. -/
def bumpVersion (u : User) : User :=
  { u with tokenVersion := u.tokenVersion + 1 }

/-- `data: { refreshToken: hashedRefresh }`. -/
def setRefreshHash (h : Str) (u : User) : User :=
  { u with refreshToken := h }

/-- `generateToken(userId)` of user.controller.ts: increments the user's
`tokenVersion`, mints an access and a refresh token carrying the new
version, stores a bcrypt hash of the refresh token on the record, and
returns both tokens; a missing user makes the Prisma update throw (`none`).
The token constructors `generateAccessToken`/`generateRefreshToken` live in
`src/utils/jwt.ts`, which is not among the captured sources; they are
modelled from the spec (§4.1 TokenCodec.mint): a signed token embedding the
subject id, the token version, an expiry instant, and the kind-discriminating
secret.  `accessExp`/`refreshExp` are the minted absolute expiry instants
and `salt` the bcrypt salt drawn for this call. -/
def generateToken (db : List User) (userId : UserId)
    (accessExp refreshExp salt : Nat) : Option (List User × Str × Str) :=
  match findUser db userId with
  | none => none
  | some u =>
      some
        (updateUser (updateUser db userId bumpVersion) userId
          (setRefreshHash (Str.bhash salt
            (Str.jwt Secret.refresh (Payload.mk userId (some (u.tokenVersion + 1))) refreshExp))),
         Str.jwt Secret.access (Payload.mk userId (some (u.tokenVersion + 1))) accessExp,
         Str.jwt Secret.refresh (Payload.mk userId (some (u.tokenVersion + 1))) refreshExp)

/-- Outcome of the `login` handler: an error response (the carried number is
the `ApiError` status code; the two input-validation branches send it via
`res.json` without `res.status`, every other branch sets both to the same
value) or a success response carrying the logged-in user's id and the two
tokens set as cookies and returned in the body. -/
inductive LoginRes where
  | err : Nat → String → LoginRes
  | ok : UserId → Str → Str → LoginRes
deriving DecidableEq

/-- `login` of user.controller.ts: looks the user up by email or name
(case-insensitively), rejects a missing user or wrong password with 401 and
a soft-deleted user with 403, then issues a token pair via `generateToken`.
Note: the handler performs no `isEmailVerified` check. -/
def login (db : List User) (data password : String)
    (accessExp refreshExp salt : Nat) : List User × LoginRes :=
  if data = "" then (db, LoginRes.err 400 "username or email is required")
  else if jsTrim password = "" || jsTrim data = "" then (db, LoginRes.err 400 "All field required")
  else
    match db.find? (fun u => jsLower u.email == jsLower data || jsLower u.name == jsLower data) with
    | none => (db, LoginRes.err 401 "Invalid username or password")
    | some u =>
        if u.deletedAt.isSome then
          (db, LoginRes.err 403 "This account has been deactivated. Please contact support.")
        else if !(bcryptCompare (Str.lit password) u.password) then
          (db, LoginRes.err 401 "Invalid username or password")
        else
          match generateToken db u.id accessExp refreshExp salt with
          | none => (db, LoginRes.err 500 "Internal server error")
          | some (db', a, r) => (db', LoginRes.ok u.id a r)

/-- `data: { refreshToken: "", tokenVersion: { increment: 1 } }` of `logout`. -/
def logoutUpdate (u : User) : User :=
  { u with refreshToken := Str.lit "", tokenVersion := u.tokenVersion + 1 }

/-- `logout` of user.controller.ts: increments `tokenVersion` and clears the
stored refresh token of the authenticated user; a missing user makes the
Prisma update throw (`none`, answered 500 by the handler). -/
def logout (db : List User) (id : UserId) : Option (List User) :=
  match findUser db id with
  | none => none
  | some _ => some (updateUser db id logoutUpdate)

/-- Outcome of the `refreshAccessToken` handler. -/
inductive RefreshRes where
  | err : Nat → String → RefreshRes
  | ok : Str → Str → RefreshRes
deriving DecidableEq

/-- `refreshAccessToken` of user.controller.ts: verifies the incoming token
against `REFRESH_TOKEN_SECRET`, checks the payload shape (`tokenVersion`
must be a number), loads the user, compares the *stored* refresh-token
string to the incoming one with `!==`, compares token versions, and on
success rotates via `generateToken`. -/
def refreshAccessToken (db : List User) (incoming : Option Str)
    (now accessExp refreshExp salt : Nat) : List User × RefreshRes :=
  match incoming with
  | none => (db, RefreshRes.err 401 "Refresh token is required")
  | some token =>
      match jwtVerify Secret.refresh now token with
      | none => (db, RefreshRes.err 401 "Invalid or expired refresh token")
      | some p =>
          match p.tokenVersion with
          | none => (db, RefreshRes.err 401 "Invalid token payload")
          | some v =>
              match findUser db p.userId with
              | none => (db, RefreshRes.err 401 "User not found")
              | some u =>
                  if u.refreshToken ≠ token then
                    (db, RefreshRes.err 401 "Refresh token has been revoked")
                  else if v ≠ u.tokenVersion then
                    (db, RefreshRes.err 401 "Token version mismatch, please login again")
                  else
                    match generateToken db u.id accessExp refreshExp salt with
                    | none => (db, RefreshRes.err 500 "Internal server error")
                    | some (db', a, r) => (db', RefreshRes.ok a r)

/-- The identity the auth middleware attaches to the request:
`{ id, name, email, role, tokenVersion, patient, doctor }`. -/
structure Identity where
  id : UserId
  name : String
  email : String
  role : Role
  tokenVersion : Nat
  patient : Option Nat
  doctor : Option Nat
deriving DecidableEq

/-- Outcome of the `isAuthenticated` middleware. -/
inductive AuthRes where
  | err : Nat → String → AuthRes
  | ok : Identity → AuthRes
deriving DecidableEq

/-- `isAuthenticated` of auth.middleware.ts: a missing bearer token is
answered 401; `jwt.verify` is called *without* a local try/catch, so a
malformed, forged or expired token throws into the handler's outer catch,
which answers 500 "error in authenticated"; the user is then loaded with
`findFirst({ id, deletedAt: null })` (401 if absent or soft-deleted); the
token-version comparison is only performed when the decoded payload carries
a `tokenVersion` field. -/
def isAuthenticated (db : List User) (token : Option Str) (now : Nat) : AuthRes :=
  match token with
  | none => AuthRes.err 401 "Unauthorized request"
  | some t =>
      match jwtVerify Secret.access now t with
      | none => AuthRes.err 500 "error in authenticated"
      | some p =>
          match findActive db p.userId with
          | none => AuthRes.err 401 "Account not found or has been deactivated"
          | some u =>
              match p.tokenVersion with
              | some v =>
                  if v ≠ u.tokenVersion then
                    AuthRes.err 401 "Token has been invalidated, please login again"
                  else
                    AuthRes.ok (Identity.mk u.id u.name u.email u.role u.tokenVersion u.patient u.doctor)
              | none =>
                  AuthRes.ok (Identity.mk u.id u.name u.email u.role u.tokenVersion u.patient u.doctor)

/-- Outcome of `softDeleteUser` of admin.controller.ts. -/
inductive DeleteRes where
  | err : Nat → String → DeleteRes
  | ok : DeleteRes
deriving DecidableEq

/-- `softDeleteUser` of admin.controller.ts: 404 if the user is absent, 400
if already soft-deleted, otherwise sets `deletedAt` to the current instant. -/
def softDeleteUser (db : List User) (userId : UserId) (now : Nat) : List User × DeleteRes :=
  match findUser db userId with
  | none => (db, DeleteRes.err 404 "User not found")
  | some u =>
      if u.deletedAt.isSome then (db, DeleteRes.err 400 "User is already deleted")
      else (updateUser db userId (fun w => { w with deletedAt := some now }), DeleteRes.ok)

/-- Outcome of consuming an email-verification token. -/
inductive ConsumeRes where
  | verified
  | notFound
  | mismatch
  | expired
deriving DecidableEq

/-- Clearing of the verification fields on successful verification. -/
def clearVerification (u : User) : User :=
  { u with emailVerificationToken := none, tokenExpiresAt := none, isEmailVerified := true }

/-- Modelled from the spec: the `verifyEmail` endpoint
(VerificationTokenManager.consume, §4.3) is not among the captured source
files — only its token generator `generateVerificationToken` and the repo
document describing it are.  Per the spec: fails with `NotFound` if the
subject is absent, `Mismatch` if the presented token differs from the
stored one (including the case where no token is pending, e.g. after a
previous successful verification), `Expired` if `now` is past
`tokenExpiresAt`; on success atomically clears the stored token/expiry and
sets `isEmailVerified = true`. -/
def consume (db : List User) (id : UserId) (presented : String) (now : Nat) :
    List User × ConsumeRes :=
  match findUser db id with
  | none => (db, ConsumeRes.notFound)
  | some u =>
      match u.emailVerificationToken, u.tokenExpiresAt with
      | some tok, some exp =>
          if tok ≠ presented then (db, ConsumeRes.mismatch)
          else if exp < now then (db, ConsumeRes.expired)
          else (updateUser db id clearVerification, ConsumeRes.verified)
      | _, _ => (db, ConsumeRes.mismatch)

/-- `tokenVersion` of the (first) record with a given id, if any. -/
def versionOf (db : List User) (id : UserId) : Option Nat :=
  (findUser db id).map User.tokenVersion

/-! ## Store lemmas -/

/-- `find?` through an `updateUser` whose rewrite does not change whether a
record satisfies the search predicate. -/
theorem find_updateUser (db : List User) (tid : UserId) (f : User → User)
    (p : User → Bool) (hp : ∀ u, p (f u) = p u) :
    List.find? p (updateUser db tid f)
      = (List.find? p db).map (fun u => if u.id = tid then f u else u) := by
  induction db with
  | nil => rfl
  | cons a l ih =>
      rw [updateUser, List.map_cons]
      by_cases hpa : p a = true
      · have hpa' : p (if a.id = tid then f a else a) = true := by
          by_cases hat : a.id = tid <;> simp [hat, hp, hpa]
        rw [List.find?_cons_of_pos _ hpa', List.find?_cons_of_pos _ hpa]
        simp
      · have hpa' : ¬ p (if a.id = tid then f a else a) = true := by
          by_cases hat : a.id = tid <;> simp [hat, hp] <;> simpa using hpa
        rw [List.find?_cons_of_neg _ hpa', List.find?_cons_of_neg _ hpa]
        exact ih

/-- A record returned by `findUser db id` has id `id`. -/
theorem id_of_findUser {db : List User} {id : UserId} {u : User}
    (hu : findUser db id = some u) : u.id = id := by
  have := List.find?_some hu
  simpa using this

/-- `findUser` through an `updateUser` on the same id, when the rewrite
preserves ids. -/
theorem findUser_updateUser (db : List User) (tid : UserId) (f : User → User)
    (hf : ∀ u, (f u).id = u.id) (id : UserId) :
    findUser (updateUser db tid f) id
      = (findUser db id).map (fun u => if u.id = tid then f u else u) := by
  unfold findUser
  exact find_updateUser db tid f _ (fun u => by simp [hf])

/-- An id-matching record with `deletedAt = none` found by `findUser` is
also what `findActive` finds. -/
theorem findActive_of_findUser {db : List User} {id : UserId} {u : User}
    (hu : findUser db id = some u) (hdel : u.deletedAt = none) :
    findActive db id = some u := by
  induction db with
  | nil => simp [findUser] at hu
  | cons a l ih =>
      by_cases h : (a.id == id) = true
      · rw [findUser, List.find?_cons_of_pos (p := fun (w : User) => w.id == id) _ h] at hu
        obtain rfl : a = u := by simpa using hu
        rw [findActive, List.find?_cons_of_pos]
        simp [h, hdel]
      · rw [findUser, List.find?_cons_of_neg (p := fun (w : User) => w.id == id) _ h] at hu
        rw [findActive, List.find?_cons_of_neg]
        · exact ih hu
        · simp only [Bool.and_eq_true, not_and]
          intro hc
          exact absurd hc h

/-- When every record with the given id is soft-deleted, the middleware\x27s
active lookup finds nothing. -/
theorem findActive_eq_none {db : List User} {id : UserId}
    (h : ∀ u ∈ db, u.id = id → u.deletedAt ≠ none) :
    findActive db id = none := by
  rw [findActive, List.find?_eq_none]
  intro a ha
  simp only [Bool.and_eq_true, beq_iff_eq, Option.isNone_iff_eq_none, not_and]
  intro hid
  exact h a ha hid

/-- `generateToken` on a present user, written out. -/
theorem generateToken_eq (db : List User) (id : UserId) (u : User) (aE rE s : Nat)
    (hu : findUser db id = some u) :
    generateToken db id aE rE s = some
      (updateUser (updateUser db id bumpVersion) id
        (setRefreshHash (Str.bhash s
          (Str.jwt Secret.refresh (Payload.mk id (some (u.tokenVersion + 1))) rE))),
       Str.jwt Secret.access (Payload.mk id (some (u.tokenVersion + 1))) aE,
       Str.jwt Secret.refresh (Payload.mk id (some (u.tokenVersion + 1))) rE) := by
  rw [generateToken, hu]

/-- The record `generateToken` leaves behind for the subject: version bumped
and the bcrypt hash of the refresh token stored. -/
theorem findUser_generate_state (db : List User) (id : UserId) (u : User) (h : Str)
    (hu : findUser db id = some u) :
    findUser (updateUser (updateUser db id bumpVersion) id (setRefreshHash h)) id
      = some (setRefreshHash h (bumpVersion u)) := by
  have hid := id_of_findUser hu
  rw [findUser_updateUser _ _ (setRefreshHash h) (fun w => rfl) id,
      findUser_updateUser _ _ bumpVersion (fun w => rfl) id, hu]
  simp [bumpVersion, hid]

/-! ## Concrete records used to evaluate the handlers -/

/-- A verified patient with one prior session generation (`tokenVersion 1`). -/
def alice : User :=
  { id := 1, name := "alice smith", email := "alice@x.com",
    password := Str.bhash 7 (Str.lit "Passw0rd"), role := Role.PATIENT,
    tokenVersion := 1, refreshToken := Str.lit "", deletedAt := none,
    isEmailVerified := true, emailVerificationToken := none, tokenExpiresAt := none,
    patient := some 11, doctor := none }

/-- The refresh token minted for `alice` by `generateToken [alice] 1 10 20 3`. -/
def rtA : Str := Str.jwt Secret.refresh (Payload.mk 1 (some 2)) 20

/-- The access token minted for `alice` by `generateToken [alice] 1 10 20 3`. -/
def atA : Str := Str.jwt Secret.access (Payload.mk 1 (some 2)) 10

/-- `alice` after that `generateToken` call. -/
def aliceG : User := { alice with tokenVersion := 2, refreshToken := Str.bhash 3 rtA }

/-- The store after that `generateToken` call. -/
def dbA1 : List User := [aliceG]

/-- The store after `logout [alice] 1`. -/
def dbL : List User := [{ alice with tokenVersion := 2, refreshToken := Str.lit "" }]

/-- A patient with correct credentials whose email is NOT verified. -/
def bob : User :=
  { id := 2, name := "bob stone", email := "bob@x.com",
    password := Str.bhash 9 (Str.lit "S3cretPw"), role := Role.PATIENT,
    tokenVersion := 0, refreshToken := Str.lit "", deletedAt := none,
    isEmailVerified := false, emailVerificationToken := some "pending123",
    tokenExpiresAt := some 100, patient := some 22, doctor := none }

/-- A soft-deleted doctor. -/
def dave : User :=
  { id := 4, name := "dave cut", email := "dave@x.com",
    password := Str.bhash 5 (Str.lit "DavePass1"), role := Role.DOCTOR,
    tokenVersion := 6, refreshToken := Str.lit "", deletedAt := some 50,
    isEmailVerified := true, emailVerificationToken := none, tokenExpiresAt := none,
    patient := none, doctor := some 44 }

/-- A patient with a pending email-verification token. -/
def erin : User :=
  { id := 5, name := "erin vale", email := "erin@x.com",
    password := Str.bhash 8 (Str.lit "ErinPass1"), role := Role.PATIENT,
    tokenVersion := 0, refreshToken := Str.lit "", deletedAt := none,
    isEmailVerified := false, emailVerificationToken := some "tok555",
    tokenExpiresAt := some 200, patient := some 55, doctor := none }

/-! ## Claim theorems -/

/-- Claim C1 (code bug): immediately after a successful login issues an
access/refresh pair, presenting the returned refresh token to
`refreshAccessToken` does NOT succeed: `generateToken` stores
`bcrypt.hash(refreshToken)` but `refreshAccessToken` compares that stored
digest to the raw incoming token with `!==`, which can never be equal, so
the very first refresh is answered 401 "Refresh token has been revoked"
instead of a new pair.  Evaluated here at a concrete subject: login
succeeds and returns the pair, and the immediate refresh with the returned
token is rejected as revoked. -/
theorem C1_refresh_after_login_is_revoked :
    login [alice] "alice@x.com" "Passw0rd" 10 20 3 = (dbA1, LoginRes.ok 1 atA rtA)
    ∧ (refreshAccessToken dbA1 (some rtA) 5 10 20 4).2
        = RefreshRes.err 401 "Refresh token has been revoked" := by
  decide

/-- Claim C2 (code bug): the `login` handler performs no `isEmailVerified`
check, contradicting the repository\x27s own EMAIL_VERIFICATION_IMPLEMENTATION.md
("Unverified user cannot login (error 403)").  Evaluated here: `bob` has
`isEmailVerified = false` and correct credentials, and login succeeds and
issues an access/refresh pair instead of failing 403. -/
theorem C2_unverified_login_succeeds :
    bob.isEmailVerified = false
    ∧ (login [bob] "bob@x.com" "S3cretPw" 10 20 3).2
        = LoginRes.ok 2 (Str.jwt Secret.access (Payload.mk 2 (some 1)) 10)
            (Str.jwt Secret.refresh (Payload.mk 2 (some 1)) 20) := by
  decide

/-- Claim C5 (code bug): the claim presupposes a subject who has performed
one successful refresh; under the code no refresh ever succeeds, because
the stored bcrypt digest of the refresh token is compared to the raw token
with `!==`.  Evaluated here: after a successful login, the FIRST refresh
with the returned token is already rejected 401 "Refresh token has been
revoked" (leaving the store unchanged), and so is a repeat of it — there is
no state in which one successful refresh has happened. -/
theorem C5_first_refresh_already_rejected :
    refreshAccessToken dbA1 (some rtA) 6 30 40 8
        = (dbA1, RefreshRes.err 401 "Refresh token has been revoked")
    ∧ refreshAccessToken (refreshAccessToken dbA1 (some rtA) 6 30 40 8).1 (some rtA) 7 30 40 9
        = (dbA1, RefreshRes.err 401 "Refresh token has been revoked") := by
  decide

/-- Claim C6 (code bug): `isAuthenticated` calls `jwt.verify` without a
local try/catch, so a malformed token, a token signed with the wrong secret,
and an expired token all throw into the handler\x27s outer catch and are
answered 500 "error in authenticated" — a generic internal failure — rather
than the distinct 401 the spec requires (and which the refresh endpoint\x27s
own local catch does produce).  Evaluated here on a malformed bearer string,
an expired access token, and a refresh-signed token. -/
theorem C6_gate_collapses_token_errors_to_500 :
    isAuthenticated [alice] (some (Str.lit "garbage")) 5
        = AuthRes.err 500 "error in authenticated"
    ∧ isAuthenticated [alice] (some (Str.jwt Secret.access (Payload.mk 1 (some 1)) 3)) 5
        = AuthRes.err 500 "error in authenticated"
    ∧ isAuthenticated [alice] (some (Str.jwt Secret.refresh (Payload.mk 1 (some 1)) 10)) 5
        = AuthRes.err 500 "error in authenticated" := by
  decide

/-- Claim C3: for every existing, non-soft-deleted subject, after
`generateToken` produces an access token, `isAuthenticated` presented with
that token (before its expiry) succeeds and yields that subject's identity:
id, role, and the role-specific patient/doctor sub-profile ids. -/
theorem C3_authenticate_after_issuePair (db db' : List User) (id : UserId) (u : User)
    (aE rE s now : Nat) (atk rtk : Str)
    (hu : findUser db id = some u) (hdel : u.deletedAt = none)
    (hgen : generateToken db id aE rE s = some (db', atk, rtk)) (hexp : now < aE) :
    isAuthenticated db' (some atk) now
      = AuthRes.ok (Identity.mk u.id u.name u.email u.role (u.tokenVersion + 1)
          u.patient u.doctor) := by
  have h := (generateToken_eq db id u aE rE s hu).symm.trans hgen
  simp only [Option.some.injEq, Prod.mk.injEq] at h
  obtain ⟨h1, h2, h3⟩ := h
  subst h1 h2 h3
  have hstate := findUser_generate_state db id u
    (Str.bhash s (Str.jwt Secret.refresh (Payload.mk id (some (u.tokenVersion + 1))) rE)) hu
  have hact : findActive (updateUser (updateUser db id bumpVersion) id
      (setRefreshHash (Str.bhash s
        (Str.jwt Secret.refresh (Payload.mk id (some (u.tokenVersion + 1))) rE)))) id
      = some (setRefreshHash (Str.bhash s
          (Str.jwt Secret.refresh (Payload.mk id (some (u.tokenVersion + 1))) rE))
          (bumpVersion u)) :=
    findActive_of_findUser hstate (by simp [setRefreshHash, bumpVersion, hdel])
  simp [isAuthenticated, jwtVerify, hexp, hact, setRefreshHash, bumpVersion]

/-- Witness for claim C3 at a concrete subject. -/
theorem C3_witness :
    findUser [alice] 1 = some alice ∧ alice.deletedAt = none
    ∧ generateToken [alice] 1 10 20 3 = some (dbA1, atA, rtA) ∧ 5 < 10
    ∧ isAuthenticated dbA1 (some atA) 5
        = AuthRes.ok (Identity.mk alice.id alice.name alice.email alice.role
            (alice.tokenVersion + 1) alice.patient alice.doctor) :=
  ⟨by decide, by decide, by decide, by decide,
   C3_authenticate_after_issuePair [alice] dbA1 1 alice 10 20 3 5 atA rtA
     (by decide) (by decide) (by decide) (by decide)⟩

/-- Claim C4: after `logout` (which increments `tokenVersion` and clears the
stored refresh token), `isAuthenticated` with an access token issued before
the logout (and not yet expired) is rejected 401 with the version-mismatch
message. -/
theorem C4_logout_revokes_prior_access (db db1 db2 : List User) (id : UserId) (u : User)
    (aE rE s now : Nat) (atk rtk : Str)
    (hu : findUser db id = some u) (hdel : u.deletedAt = none)
    (hgen : generateToken db id aE rE s = some (db1, atk, rtk))
    (hlog : logout db1 id = some db2) (hexp : now < aE) :
    isAuthenticated db2 (some atk) now
      = AuthRes.err 401 "Token has been invalidated, please login again" := by
  have h := (generateToken_eq db id u aE rE s hu).symm.trans hgen
  simp only [Option.some.injEq, Prod.mk.injEq] at h
  obtain ⟨h1, h2, h3⟩ := h
  subst h1 h2 h3
  have hid := id_of_findUser hu
  have hstate := findUser_generate_state db id u
    (Str.bhash s (Str.jwt Secret.refresh (Payload.mk id (some (u.tokenVersion + 1))) rE)) hu
  rw [logout, hstate] at hlog
  simp only [Option.some.injEq] at hlog
  subst hlog
  have hstate2 : findUser (updateUser (updateUser (updateUser db id bumpVersion) id
      (setRefreshHash (Str.bhash s
        (Str.jwt Secret.refresh (Payload.mk id (some (u.tokenVersion + 1))) rE)))) id
      logoutUpdate) id
      = some (logoutUpdate (setRefreshHash
          (Str.bhash s (Str.jwt Secret.refresh (Payload.mk id (some (u.tokenVersion + 1))) rE))
          (bumpVersion u))) := by
    rw [findUser_updateUser _ _ logoutUpdate (fun w => rfl) id, hstate]
    simp [logoutUpdate, setRefreshHash, bumpVersion, hid]
  have hact := findActive_of_findUser hstate2
    (by simp [logoutUpdate, setRefreshHash, bumpVersion, hdel])
  have hne : u.tokenVersion + 1 ≠ u.tokenVersion + 1 + 1 := by omega
  simp [isAuthenticated, jwtVerify, hexp, hact, logoutUpdate, setRefreshHash, bumpVersion, hne]

/-- Witness for claim C4 at a concrete subject. -/
theorem C4_witness :
    findUser [alice] 1 = some alice ∧ alice.deletedAt = none
    ∧ generateToken [alice] 1 10 20 3 = some (dbA1, atA, rtA)
    ∧ logout dbA1 1 = some [{ aliceG with tokenVersion := 3, refreshToken := Str.lit "" }]
    ∧ 5 < 10
    ∧ isAuthenticated [{ aliceG with tokenVersion := 3, refreshToken := Str.lit "" }] (some atA) 5
        = AuthRes.err 401 "Token has been invalidated, please login again" :=
  ⟨by decide, by decide, by decide, by decide, by decide,
   C4_logout_revokes_prior_access [alice] dbA1
     [{ aliceG with tokenVersion := 3, refreshToken := Str.lit "" }] 1 alice 10 20 3 5 atA rtA
     (by decide) (by decide) (by decide) (by decide) (by decide)⟩

/-- Claim C8: when every record of a subject is soft-deleted
(`deletedAt` set), `isAuthenticated` rejects 401 every validly-signed,
unexpired access token for that subject — whatever `tokenVersion` the token
carries (including the subject's current one, and including version-less
payloads). -/
theorem C8_soft_deleted_always_rejected (db : List User) (id : UserId)
    (now exp : Nat) (tv : Option Nat)
    (hdel : ∀ u ∈ db, u.id = id → u.deletedAt ≠ none) (hexp : now < exp) :
    isAuthenticated db (some (Str.jwt Secret.access (Payload.mk id tv) exp)) now
      = AuthRes.err 401 "Account not found or has been deactivated" := by
  have hfa := findActive_eq_none hdel
  simp [isAuthenticated, jwtVerify, hexp, hfa]

/-- Witness for claim C8: a soft-deleted subject presenting a token carrying
its current `tokenVersion`. -/
theorem C8_witness :
    (∀ u ∈ [dave], u.id = 4 → u.deletedAt ≠ none) ∧ 5 < 9
    ∧ isAuthenticated [dave] (some (Str.jwt Secret.access (Payload.mk 4 (some 6)) 9)) 5
        = AuthRes.err 401 "Account not found or has been deactivated" :=
  ⟨by decide, by decide,
   C8_soft_deleted_always_rejected [dave] 4 5 9 (some 6) (by decide) (by decide)⟩

/-- Claim C10: a validly-signed, unexpired access token whose payload has no
`tokenVersion` field skips the version comparison in `isAuthenticated`
(`decodedToken.tokenVersion !== undefined`), so it is accepted whenever the
subject exists and is not soft-deleted — even right after a `logout` has
incremented the stored `tokenVersion`: logout/rotation does not revoke
version-less tokens. -/
theorem C10_versionless_token_survives_logout (db db' : List User) (id : UserId)
    (u : User) (now exp : Nat)
    (hu : findUser db id = some u) (hdel : u.deletedAt = none)
    (hlog : logout db id = some db') (hexp : now < exp) :
    isAuthenticated db' (some (Str.jwt Secret.access (Payload.mk id none) exp)) now
      = AuthRes.ok (Identity.mk u.id u.name u.email u.role (u.tokenVersion + 1)
          u.patient u.doctor) := by
  rw [logout, hu] at hlog
  simp only [Option.some.injEq] at hlog
  subst hlog
  have hid := id_of_findUser hu
  have hstate : findUser (updateUser db id logoutUpdate) id = some (logoutUpdate u) := by
    rw [findUser_updateUser _ _ logoutUpdate (fun w => rfl) id, hu]
    simp [hid]
  have hact := findActive_of_findUser hstate (by simp [logoutUpdate, hdel])
  simp [isAuthenticated, jwtVerify, hexp, hact, logoutUpdate]

/-- Witness for claim C10 at a concrete subject. -/
theorem C10_witness :
    findUser [alice] 1 = some alice ∧ alice.deletedAt = none
    ∧ logout [alice] 1 = some dbL ∧ 5 < 9
    ∧ isAuthenticated dbL (some (Str.jwt Secret.access (Payload.mk 1 none) 9)) 5
        = AuthRes.ok (Identity.mk alice.id alice.name alice.email alice.role
            (alice.tokenVersion + 1) alice.patient alice.doctor) :=
  ⟨by decide, by decide, by decide, by decide,
   C10_versionless_token_survives_logout [alice] dbL 1 alice 5 9
     (by decide) (by decide) (by decide) (by decide)⟩

/-- Claim C9: consuming a pending, unexpired email-verification token
succeeds once — clearing the stored token/expiry and setting
`isEmailVerified` — and a second consume presenting the same token is
rejected (`Mismatch`, the stored token being gone) and leaves the store
unchanged: a cleared token is never re-verified. -/
theorem C9_consume_is_single_use (db : List User) (id : UserId) (u : User)
    (tok : String) (exp now now2 : Nat)
    (hu : findUser db id = some u) (htok : u.emailVerificationToken = some tok)
    (hexp : u.tokenExpiresAt = some exp) (hnow : ¬ exp < now) :
    (consume db id tok now).2 = ConsumeRes.verified
    ∧ (findUser (consume db id tok now).1 id).map User.isEmailVerified = some true
    ∧ consume (consume db id tok now).1 id tok now2
        = ((consume db id tok now).1, ConsumeRes.mismatch) := by
  have hid := id_of_findUser hu
  have hfirst : consume db id tok now
      = (updateUser db id clearVerification, ConsumeRes.verified) := by
    rw [consume, hu]
    simp [htok, hexp, hnow]
  have hstate : findUser (updateUser db id clearVerification) id
      = some (clearVerification u) := by
    rw [findUser_updateUser _ _ clearVerification (fun w => rfl) id, hu]
    simp [hid]
  refine ⟨by rw [hfirst], ?_, ?_⟩
  · rw [hfirst]
    simp [hstate, clearVerification]
  · rw [hfirst]
    simp only
    rw [consume, hstate]
    simp [clearVerification]

/-- Witness for claim C9 at a concrete subject with a pending token. -/
theorem C9_witness :
    findUser [erin] 5 = some erin ∧ erin.emailVerificationToken = some "tok555"
    ∧ erin.tokenExpiresAt = some 200 ∧ ¬ (200 < 150)
    ∧ (consume [erin] 5 "tok555" 150).2 = ConsumeRes.verified
    ∧ (findUser (consume [erin] 5 "tok555" 150).1 5).map User.isEmailVerified = some true
    ∧ consume (consume [erin] 5 "tok555" 150).1 5 "tok555" 160
        = ((consume [erin] 5 "tok555" 150).1, ConsumeRes.mismatch) := by
  refine ⟨by decide, by decide, by decide, by decide, ?_⟩
  have h := C9_consume_is_single_use [erin] 5 erin "tok555" 200 150 160
    (by decide) (by decide) (by decide) (by decide)
  exact ⟨h.1, h.2.1, h.2.2⟩

/-! ## tokenVersion monotonicity -/

/-- `versionOf` through a single id-preserving `updateUser`. -/
theorem versionOf_updateUser (db : List User) (tid : UserId) (f : User → User)
    (hf : ∀ u, (f u).id = u.id) (id : UserId) :
    versionOf (updateUser db tid f) id
      = (findUser db id).map (fun u => (if u.id = tid then f u else u).tokenVersion) := by
  rw [versionOf, findUser_updateUser db tid f hf id]
  cases findUser db id <;> simp

/-- Monotonicity of `versionOf` under one version-non-decreasing update. -/
theorem version_mono_updateUser (db : List User) (tid : UserId) (f : User → User)
    (hf : ∀ u, (f u).id = u.id) (hv : ∀ u, u.tokenVersion ≤ (f u).tokenVersion)
    (id : UserId) (v v' : Nat)
    (h : versionOf db id = some v) (h' : versionOf (updateUser db tid f) id = some v') :
    v ≤ v' := by
  rw [versionOf_updateUser db tid f hf id] at h'
  rw [versionOf] at h
  cases hfind : findUser db id with
  | none => rw [hfind] at h; cases h
  | some u =>
      rw [hfind] at h h'
      simp only [Option.map_some', Option.some.injEq] at h h'
      subst h
      subst h'
      by_cases hid : u.id = tid
      · rw [if_pos hid]; exact hv u
      · rw [if_neg hid]

/-- Monotonicity of `versionOf` under two chained version-non-decreasing
updates on the same id (the shape `generateToken` produces). -/
theorem version_mono_two_updates (db : List User) (tid : UserId) (f g : User → User)
    (hf : ∀ u, (f u).id = u.id) (hg : ∀ u, (g u).id = u.id)
    (hvf : ∀ u, u.tokenVersion ≤ (f u).tokenVersion)
    (hvg : ∀ u, u.tokenVersion ≤ (g u).tokenVersion)
    (id : UserId) (v v' : Nat)
    (h : versionOf db id = some v)
    (h' : versionOf (updateUser (updateUser db tid f) tid g) id = some v') :
    v ≤ v' := by
  cases hmid : versionOf (updateUser db tid f) id with
  | none =>
      rw [versionOf_updateUser _ _ g hg id, findUser_updateUser db tid f hf id] at h'
      rw [versionOf, findUser_updateUser db tid f hf id] at hmid
      cases hfind : findUser db id with
      | none => rw [versionOf, hfind] at h; cases h
      | some u => rw [hfind] at hmid; simp at hmid
  | some vm =>
      exact Nat.le_trans
        (version_mono_updateUser db tid f hf hvf id v vm h hmid)
        (version_mono_updateUser (updateUser db tid f) tid g hg hvg id vm v' hmid h')

/-- Monotonicity of `versionOf` across `generateToken`. -/
theorem version_mono_generateToken (db : List User) (uid : UserId) (aE rE s : Nat)
    (db' : List User) (a r : Str) (id : UserId) (v v' : Nat)
    (hgen : generateToken db uid aE rE s = some (db', a, r))
    (h : versionOf db id = some v) (h' : versionOf db' id = some v') : v ≤ v' := by
  cases hfind : findUser db uid with
  | none => rw [generateToken, hfind] at hgen; cases hgen
  | some u =>
      rw [generateToken, hfind] at hgen
      simp only [Option.some.injEq, Prod.mk.injEq] at hgen
      obtain ⟨h1, -, -⟩ := hgen
      subst h1
      exact version_mono_two_updates db uid bumpVersion
        (setRefreshHash (Str.bhash s
          (Str.jwt Secret.refresh (Payload.mk uid (some (u.tokenVersion + 1))) rE)))
        (fun w => rfl) (fun w => rfl) (fun w => Nat.le_succ _) (fun w => Nat.le_refl _)
        id v v' h h'

/-- Monotonicity of `versionOf` across `login` (every branch either leaves
the store untouched or goes through `generateToken`). -/
theorem version_mono_login (db : List User) (d pw : String) (aE rE s : Nat)
    (id : UserId) (v v' : Nat)
    (h : versionOf db id = some v)
    (h' : versionOf (login db d pw aE rE s).1 id = some v') : v ≤ v' := by
  rw [login] at h'
  split at h'
  · exact Nat.le_of_eq (Option.some.inj (h.symm.trans h'))
  · split at h'
    · exact Nat.le_of_eq (Option.some.inj (h.symm.trans h'))
    · split at h'
      · exact Nat.le_of_eq (Option.some.inj (h.symm.trans h'))
      · split at h'
        · exact Nat.le_of_eq (Option.some.inj (h.symm.trans h'))
        · split at h'
          · exact Nat.le_of_eq (Option.some.inj (h.symm.trans h'))
          · split at h'
            · exact Nat.le_of_eq (Option.some.inj (h.symm.trans h'))
            · rename_i db' a r hgen
              exact version_mono_generateToken db _ aE rE s db' a r id v v' hgen h h'

/-- Monotonicity of `versionOf` across `refreshAccessToken`. -/
theorem version_mono_refresh (db : List User) (inc : Option Str) (now aE rE s : Nat)
    (id : UserId) (v v' : Nat)
    (h : versionOf db id = some v)
    (h' : versionOf (refreshAccessToken db inc now aE rE s).1 id = some v') : v ≤ v' := by
  unfold refreshAccessToken at h'
  split at h'
  · exact Nat.le_of_eq (Option.some.inj (h.symm.trans h'))
  · split at h'
    · exact Nat.le_of_eq (Option.some.inj (h.symm.trans h'))
    · split at h'
      · exact Nat.le_of_eq (Option.some.inj (h.symm.trans h'))
      · split at h'
        · exact Nat.le_of_eq (Option.some.inj (h.symm.trans h'))
        · split at h'
          · exact Nat.le_of_eq (Option.some.inj (h.symm.trans h'))
          · split at h'
            · exact Nat.le_of_eq (Option.some.inj (h.symm.trans h'))
            · split at h'
              · exact Nat.le_of_eq (Option.some.inj (h.symm.trans h'))
              · rename_i db' a r hgen
                exact version_mono_generateToken db _ aE rE s db' a r id v v' hgen h h'

/-- Monotonicity of `versionOf` across `logout`. -/
theorem version_mono_logout (db : List User) (uid : UserId) (db' : List User)
    (id : UserId) (v v' : Nat)
    (hlog : logout db uid = some db')
    (h : versionOf db id = some v) (h' : versionOf db' id = some v') : v ≤ v' := by
  cases hfind : findUser db uid with
  | none => rw [logout, hfind] at hlog; cases hlog
  | some u =>
      rw [logout, hfind] at hlog
      simp only [Option.some.injEq] at hlog
      subst hlog
      exact version_mono_updateUser db uid logoutUpdate (fun w => rfl)
        (fun w => Nat.le_succ _) id v v' h h'

/-- Claim C7: across every operation of the session core —
`generateToken` (issuePair), `login`, `refreshAccessToken`, `logout` —
every subject's `tokenVersion` after the operation is greater than or equal
to its value before; no operation decreases or resets it. -/
theorem C7_tokenVersion_never_decreases :
    (∀ db uid aE rE s db' a r id v v',
        generateToken db uid aE rE s = some (db', a, r) →
        versionOf db id = some v → versionOf db' id = some v' → v ≤ v')
    ∧ (∀ db d pw aE rE s id v v',
        versionOf db id = some v →
        versionOf (login db d pw aE rE s).1 id = some v' → v ≤ v')
    ∧ (∀ db inc now aE rE s id v v',
        versionOf db id = some v →
        versionOf (refreshAccessToken db inc now aE rE s).1 id = some v' → v ≤ v')
    ∧ (∀ db uid db' id v v',
        logout db uid = some db' →
        versionOf db id = some v → versionOf db' id = some v' → v ≤ v') :=
  ⟨fun db uid aE rE s db' a r id v v' hg h h' =>
      version_mono_generateToken db uid aE rE s db' a r id v v' hg h h',
   fun db d pw aE rE s id v v' h h' =>
      version_mono_login db d pw aE rE s id v v' h h',
   fun db inc now aE rE s id v v' h h' =>
      version_mono_refresh db inc now aE rE s id v v' h h',
   fun db uid db' id v v' hl h h' =>
      version_mono_logout db uid db' id v v' hl h h'⟩

/-- Witness for claim C7: each of the four operations evaluated at a
concrete store. -/
theorem C7_witness :
    (generateToken [alice] 1 10 20 3 = some (dbA1, atA, rtA)
      ∧ versionOf [alice] 1 = some 1 ∧ versionOf dbA1 1 = some 2 ∧ 1 ≤ 2)
    ∧ (versionOf [alice] 1 = some 1
      ∧ versionOf (login [alice] "alice@x.com" "Passw0rd" 10 20 3).1 1 = some 2 ∧ 1 ≤ 2)
    ∧ (versionOf dbA1 1 = some 2
      ∧ versionOf (refreshAccessToken dbA1 (some rtA) 5 10 20 4).1 1 = some 2 ∧ 2 ≤ 2)
    ∧ (logout [alice] 1 = some dbL ∧ versionOf [alice] 1 = some 1
      ∧ versionOf dbL 1 = some 2 ∧ 1 ≤ 2) :=
  ⟨⟨by decide, by decide, by decide,
     C7_tokenVersion_never_decreases.1 [alice] 1 10 20 3 dbA1 atA rtA 1 1 2
       (by decide) (by decide) (by decide)⟩,
   ⟨by decide, by decide,
     C7_tokenVersion_never_decreases.2.1 [alice] "alice@x.com" "Passw0rd" 10 20 3 1 1 2
       (by decide) (by decide)⟩,
   ⟨by decide, by decide,
     C7_tokenVersion_never_decreases.2.2.1 dbA1 (some rtA) 5 10 20 4 1 2 2
       (by decide) (by decide)⟩,
   ⟨by decide, by decide, by decide,
     C7_tokenVersion_never_decreases.2.2.2 [alice] 1 dbL 1 1 2
       (by decide) (by decide) (by decide)⟩⟩
